import Mathlib

/-!
Shallow embedding of the configuration loader (`src/config.py`) and the
Firebase connection initializer (`src/firebase_manager.py`) of the
autonomous-cross-domain-synergy-engine repository, with theorems settling
the spec claims about them.

The process environment is modelled as an association list of variable
names to string values.  Python exceptions are modelled as an explicit
error type carried in `Except`.
-/

namespace Synergy

/-- Python exceptions that the embedded code can raise.
`MissingConfiguration` models pydantic's validation failure for a required
field whose environment variable is absent (the spec's taxonomy name);
`ValidationError` models pydantic's failure to coerce a value to the
declared field type; `ValueError` is raised by
`CrossDomainConfig.validate`; `FirebaseError` is the Firebase SDK's own
error taxonomy; `ConnectionError` is raised when retries are exhausted;
`OtherError` stands for any exception outside those taxonomies. -/
inductive PyError where
  | MissingConfiguration (field : String)
  | ValidationError (msg : String)
  | ValueError (msg : String)
  | FirebaseError (msg : String)
  | ConnectionError (msg : String)
  | OtherError (msg : String)
deriving DecidableEq, Repr

/-- The process environment: a finite map from variable names to values. -/
def Env : Type := List (String × String)

/-- `os` environment lookup: the value of variable `name`, if set. -/
def getEnv (env : Env) (name : String) : Option String :=
  List.lookup name env

/-- The character-level behaviour of Python's `v.replace('\\n', '\n')`:
a left-to-right scan replacing every non-overlapping occurrence of the
two-character sequence backslash-n by a newline character.  Written as a
structural recursion over the character list so that it evaluates inside
the kernel (the library string replace does not). -/
def replaceEscapedNewline : List Char → List Char
  | [] => []
  | '\\' :: 'n' :: cs => '\n' :: replaceEscapedNewline cs
  | c :: cs => c :: replaceEscapedNewline cs

/-- `FirebaseConfig.fix_private_key_format` (src/config.py:21-24): the
pydantic validator on `private_key` replacing every literal two-character
backslash-n escape sequence with an actual newline character. -/
def fix_private_key_format (v : String) : String :=
  .mk (replaceEscapedNewline v.data)

/-- `FirebaseConfig` (src/config.py:12-24): service-account credential
fields, each read from a required environment variable. -/
structure FirebaseConfig where
  project_id : String
  private_key_id : String
  private_key : String
  client_email : String
  client_id : String
  client_x509_cert_url : String
deriving DecidableEq, Repr

/-- Reading one required pydantic field from its designated environment
variable: absent means the settings object fails to construct. -/
def requiredField (env : Env) (name : String) : Except PyError String :=
  match getEnv env name with
  | some v => .ok v
  | none => .error (.MissingConfiguration name)

/-- Construction of `FirebaseConfig()` (src/config.py:12-24): each field is
read from its environment variable; the `private_key` validator is applied;
all other fields are stored as read.  Pydantic raises on the missing
fields before an object exists, so failure yields no partial object. -/
def FirebaseConfig.load (env : Env) : Except PyError FirebaseConfig := do
  let pid ← requiredField env "FIREBASE_PROJECT_ID"
  let pkid ← requiredField env "FIREBASE_PRIVATE_KEY_ID"
  let pk ← requiredField env "FIREBASE_PRIVATE_KEY"
  let ce ← requiredField env "FIREBASE_CLIENT_EMAIL"
  let cid ← requiredField env "FIREBASE_CLIENT_ID"
  let curl ← requiredField env "FIREBASE_CLIENT_X509_CERT_URL"
  .ok { project_id := pid
        private_key_id := pkid
        private_key := fix_private_key_format pk
        client_email := ce
        client_id := cid
        client_x509_cert_url := curl }

/-- `DomainAPIConfig` (src/config.py:26-31): mapping from domain name to
API key, defaulting to the empty dict.  No claim concerns its contents;
pydantic's JSON decoding of a present `DOMAIN_`-prefixed variable is
external library behaviour and is not modelled. -/
structure DomainAPIConfig where
  api_keys : List (String × String)
deriving DecidableEq, Repr

/-- Construction of `DomainAPIConfig()`: with no `DOMAIN_`-prefixed
variable set it is the default empty mapping, and it never fails. -/
def DomainAPIConfig.load (_env : Env) : Except PyError DomainAPIConfig :=
  .ok { api_keys := [] }

/-- `SystemConfig` (src/config.py:33-38): system-wide settings. -/
structure SystemConfig where
  sync_interval_minutes : Int
  max_concurrent_requests : Int
  log_level : String
  allowed_domains : List String
deriving DecidableEq, Repr

/-- Accumulating decimal-digit parser: `some` of the value when every
character is a digit, `none` otherwise. -/
def digitsToNat : Nat → List Char → Option Nat
  | acc, [] => some acc
  | acc, c :: cs =>
    if c.isDigit then digitsToNat (10 * acc + (c.toNat - 48)) cs else none

/-- Python's `int(...)` coercion that pydantic applies to an `int` field
read from the environment: an optional sign followed by a non-empty run
of decimal digits (whitespace and underscore tolerance of CPython's
parser is outside every claim and not modelled). -/
def str_to_int (s : String) : Option Int :=
  match s.data with
  | [] => none
  | '-' :: cs =>
    if cs = [] then none else (digitsToNat 0 cs).map (fun n => -(n : Int))
  | '+' :: cs =>
    if cs = [] then none else (digitsToNat 0 cs).map (fun n => (n : Int))
  | cs => (digitsToNat 0 cs).map (fun n => (n : Int))

/-- Reading one optional pydantic `int` field: absent yields the default;
a present value is coerced to `int`, and a value that is not an integer
literal makes construction fail. -/
def optionalIntField (env : Env) (name : String) (dflt : Int) :
    Except PyError Int :=
  match getEnv env name with
  | none => .ok dflt
  | some s =>
    match str_to_int s with
    | some n => .ok n
    | none => .error (.ValidationError (name ++ ": value is not a valid integer"))

/-- Construction of `SystemConfig()` (src/config.py:33-38): the two integer
fields default to 30 and 5, `log_level` defaults to "INFO", and
`allowed_domains` is the fixed literal list.  The source declares no bound
on the integer fields: any integer the environment supplies is stored. -/
def SystemConfig.load (env : Env) : Except PyError SystemConfig := do
  let si ← optionalIntField env "SYNC_INTERVAL_MINUTES" 30
  let mc ← optionalIntField env "MAX_CONCURRENT_REQUESTS" 5
  let ll := (getEnv env "LOG_LEVEL").getD "INFO"
  .ok { sync_interval_minutes := si
        max_concurrent_requests := mc
        log_level := ll
        allowed_domains := ["ecommerce", "logistics", "finance", "manufacturing"] }

/-- `CrossDomainConfig` (src/config.py:40-45): the aggregate of the three
settings objects. -/
structure CrossDomainConfig where
  firebase : FirebaseConfig
  domain_api : DomainAPIConfig
  system : SystemConfig
deriving DecidableEq, Repr

/-- `CrossDomainConfig.__init__` (src/config.py:42-45): constructs the
three settings objects in order; any failure propagates and no aggregate
object is produced. -/
def CrossDomainConfig.load (env : Env) : Except PyError CrossDomainConfig := do
  let fb ← FirebaseConfig.load env
  let da ← DomainAPIConfig.load env
  let sys ← SystemConfig.load env
  .ok { firebase := fb, domain_api := da, system := sys }

/-- A Python value placed in the credential payload dict.  The fields the
source puts there are all strings; `nonserializable` stands for an injected
value that `json.dumps` cannot handle (for example a function object). -/
inductive PyVal where
  | str (s : String)
  | nonserializable (descr : String)
deriving DecidableEq, Repr

/-- Whether `json.dumps` can serialize a value. -/
def PyVal.serializable : PyVal → Bool
  | .str _ => true
  | .nonserializable _ => false

/-- The message `str(e)` of a `TypeError` that `json.dumps` raises on a
value it cannot serialize. -/
def PyVal.dumpsFailure : PyVal → String
  | .str _ => ""
  | .nonserializable d => "Object of type " ++ d ++ " is not JSON serializable"

/-- `json.dumps` applied to a flat dict (src/config.py:64): succeeds when
every value is serializable and raises a `TypeError` on the first value
that is not.  The serialized text itself is never used by the source, so
the success payload is `Unit`. -/
def json_dumps : List (String × PyVal) → Except PyError Unit
  | [] => .ok ()
  | (_, v) :: rest =>
    if v.serializable then json_dumps rest
    else .error (.OtherError v.dumpsFailure)

/-- `str(e)` for the embedded exceptions: the message the exception
carries. -/
def PyError.toMessage : PyError → String
  | .MissingConfiguration f => f ++ " field required"
  | .ValidationError m => m
  | .ValueError m => m
  | .FirebaseError m => m
  | .ConnectionError m => m
  | .OtherError m => m

/-- The credential payload dict built by `CrossDomainConfig.validate`
(src/config.py:52-63) from the loaded Firebase settings: fixed literal
entries plus the six credential fields, all strings. -/
def creds_dict (fb : FirebaseConfig) : List (String × PyVal) :=
  [ ("type", .str "service_account")
  , ("project_id", .str fb.project_id)
  , ("private_key_id", .str fb.private_key_id)
  , ("private_key", .str fb.private_key)
  , ("client_email", .str fb.client_email)
  , ("client_id", .str fb.client_id)
  , ("auth_uri", .str "https://accounts.google.com/o/oauth2/auth")
  , ("token_uri", .str "https://oauth2.googleapis.com/token")
  , ("auth_provider_x509_cert_url", .str "https://www.googleapis.com/oauth2/v1/certs")
  , ("client_x509_cert_url", .str fb.client_x509_cert_url) ]

/-- The try/except body of `CrossDomainConfig.validate`
(src/config.py:47-67) applied to an arbitrary payload dict (so that an
injected non-serializable field can be expressed): serialize the payload;
on success return `True`; on any exception raise a `ValueError` whose
message wraps the underlying cause.  No branch returns `False` and no
exception is suppressed. -/
def validate_payload (payload : List (String × PyVal)) : Except PyError Bool :=
  match json_dumps payload with
  | .ok _ => .ok true
  | .error e => .error (.ValueError ("Configuration validation failed: " ++ e.toMessage))

/-- `CrossDomainConfig.validate` (src/config.py:47-67): builds the
credential payload from the Firebase settings and serializes it. -/
def CrossDomainConfig.validate (cfg : CrossDomainConfig) : Except PyError Bool :=
  validate_payload (creds_dict cfg.firebase)

/-! ## The connection initializer (src/firebase_manager.py) -/

/-- The outcome of one body of the retry loop in
`FirebaseManager._initialize_firebase` (src/firebase_manager.py:31-60):
build credentials, initialize the app, obtain a client and perform the
health-check write.  Success reaches the `return`; `firebaseError` is an
exception from the SDK's own taxonomy (`exceptions.FirebaseError`);
`otherError` is any other exception raised inside the try block. -/
inductive AttemptOutcome where
  | success
  | firebaseError (msg : String)
  | otherError (msg : String)
deriving DecidableEq, Repr

/-- The remote service as an oracle: the outcome of attempt number `n`
(0-based). -/
def Service : Type := Nat → AttemptOutcome

/-- Modelled from the spec: the f-string of the final
`raise ConnectionError` (src/firebase_manager.py:67) is cut off
mid-interpolation in the visible source, right after `{str`; the spec
states that exhausting retries fails "with a ConnectionError wrapping the
last underlying cause", so the message is completed as the visible literal
prefix followed by `str(e)` of the last recoverable error. -/
def connectionFailureMessage (cause : String) : String :=
  "Cannot connect to Firebase: " ++ cause

/-- How `_initialize_firebase` ends: `initialized` is the `return` after a
successful health check (having set `self._initialized = True`);
`fellThrough` is the loop running zero iterations (only possible when
`max_retries = 0`), leaving `self._initialized = False`; `raised e` is an
exception propagating out of the method. -/
inductive InitOutcome where
  | initialized
  | fellThrough
  | raised (e : PyError)
deriving DecidableEq, Repr

/-- The retry loop of `FirebaseManager._initialize_firebase`
(src/firebase_manager.py:30-67), iterating `attempt` over
`range(max_retries)`.  Returns the number of attempts performed, the list
of sleep durations (`retry_delay * 2 ** attempt`, in order), and how the
method ended.  The first argument is the fuel `max_retries - attempt`,
positive exactly while the `for` loop continues. -/
def initLoop (max_retries : Nat) (retry_delay : ℚ) (svc : Service) :
    Nat → Nat → Nat × List ℚ × InitOutcome
  | 0, _ => (0, [], .fellThrough)
  | remaining + 1, attempt =>
    match svc attempt with
    | .success => (1, [], .initialized)
    | .firebaseError m =>
      if attempt < max_retries - 1 then
        let d := retry_delay * 2 ^ attempt
        let rest := initLoop max_retries retry_delay svc remaining (attempt + 1)
        (rest.1 + 1, d :: rest.2.1, rest.2.2)
      else
        (1, [], .raised (.ConnectionError (connectionFailureMessage m)))
    | .otherError m => (1, [], .raised (.OtherError m))

/-- `FirebaseManager._initialize_firebase` (src/firebase_manager.py:28-67):
run the retry loop from attempt 0. -/
def initialize_firebase (max_retries : Nat) (retry_delay : ℚ) (svc : Service) :
    Nat × List ℚ × InitOutcome :=
  initLoop max_retries retry_delay svc max_retries 0

/-- `FirebaseManager` (src/firebase_manager.py:17-27): retry parameters and
the initialized flag (the app/client handles live in the external SDK). -/
structure FirebaseManager where
  max_retries : Nat
  retry_delay : ℚ
  initialized : Bool
deriving DecidableEq, Repr

/-- `FirebaseManager.__init__` (src/firebase_manager.py:20-26): stores the
parameters, sets `_initialized = False`, then calls
`_initialize_firebase`.  Returns the attempts performed, the sleeps, and
either the constructed manager or the exception that propagated. -/
def FirebaseManager.construct (max_retries : Nat) (retry_delay : ℚ)
    (svc : Service) : Nat × List ℚ × Except PyError FirebaseManager :=
  let r := initialize_firebase max_retries retry_delay svc
  match r.2.2 with
  | .initialized =>
    (r.1, r.2.1, .ok { max_retries := max_retries, retry_delay := retry_delay,
                       initialized := true })
  | .fellThrough =>
    (r.1, r.2.1, .ok { max_retries := max_retries, retry_delay := retry_delay,
                       initialized := false })
  | .raised e => (r.1, r.2.1, .error e)

/-! ## Claims about the connection initializer -/

/-- Claim C1: with `max_retries = 3`, if the service raises a recoverable
(FirebaseError-taxonomy) error on the first two attempts and succeeds on
the third, construction succeeds with the initialized flag set, and the
sleeps are exactly `retry_delay * 2 ^ 0 = retry_delay` before the second
attempt and `retry_delay * 2 ^ 1 = 2 * retry_delay` before the third. -/
theorem construct_succeeds_on_third_attempt (d : ℚ) (svc : Service)
    (m0 m1 : String)
    (h0 : svc 0 = .firebaseError m0) (h1 : svc 1 = .firebaseError m1)
    (h2 : svc 2 = .success) :
    FirebaseManager.construct 3 d svc =
      (3, [d, 2 * d],
       .ok { max_retries := 3, retry_delay := d, initialized := true }) := by
  have hinit : initialize_firebase 3 d svc = (3, [d, 2 * d], .initialized) := by
    simp only [initialize_firebase, initLoop, h0, h1, h2]
    norm_num
    ring
  simp [FirebaseManager.construct, hinit]

/-- Witness for C1 at a concrete service failing twice then succeeding. -/
theorem construct_succeeds_on_third_attempt_witness :
    FirebaseManager.construct 3 1
      (fun n => if n < 2 then .firebaseError "unavailable" else .success) =
      (3, [1, 2 * 1],
       .ok { max_retries := 3, retry_delay := 1, initialized := true }) :=
  construct_succeeds_on_third_attempt 1 _ "unavailable" "unavailable"
    rfl rfl rfl

/-- Claim C2: with `max_retries = 3` and a service that raises a
recoverable error on every attempt, exactly 3 attempts occur and
construction raises a `ConnectionError` whose message wraps the last
underlying error. -/
theorem construct_exhausts_retries (d : ℚ) (svc : Service) (m : Nat → String)
    (h : ∀ n, svc n = .firebaseError (m n)) :
    FirebaseManager.construct 3 d svc =
      (3, [d, 2 * d],
       .error (.ConnectionError (connectionFailureMessage (m 2)))) := by
  have hinit : initialize_firebase 3 d svc =
      (3, [d, 2 * d],
       .raised (.ConnectionError (connectionFailureMessage (m 2)))) := by
    simp only [initialize_firebase, initLoop, h 0, h 1, h 2]
    norm_num
    ring
  simp [FirebaseManager.construct, hinit]

/-- Witness for C2 at a concrete always-failing service. -/
theorem construct_exhausts_retries_witness :
    FirebaseManager.construct 3 1 (fun _ => .firebaseError "deadline exceeded") =
      (3, [1, 2 * 1],
       .error (.ConnectionError (connectionFailureMessage "deadline exceeded"))) :=
  construct_exhausts_retries 1 _ (fun _ => "deadline exceeded") (fun _ => rfl)

/-- Claim C6: an exception outside the Firebase error taxonomy raised
during the first attempt propagates immediately: one attempt, no sleeps,
no retry. -/
theorem construct_propagates_foreign_exception (max_retries : Nat) (d : ℚ)
    (svc : Service) (msg : String) (hmr : 1 ≤ max_retries)
    (h : svc 0 = .otherError msg) :
    FirebaseManager.construct max_retries d svc =
      (1, [], .error (.OtherError msg)) := by
  cases max_retries with
  | zero => omega
  | succ k =>
    have hinit : initialize_firebase (k + 1) d svc =
        (1, [], .raised (.OtherError msg)) := by
      simp [initialize_firebase, initLoop, h]
    simp [FirebaseManager.construct, hinit]

/-- Witness for C6 at a concrete service raising a foreign exception. -/
theorem construct_propagates_foreign_exception_witness :
    FirebaseManager.construct 3 1 (fun _ => .otherError "KeyError") =
      (1, [], .error (.OtherError "KeyError")) :=
  construct_propagates_foreign_exception 3 1 _ "KeyError" (by decide) rfl

/-- Claim C10: constructing the manager with `max_retries = 0` performs
zero attempts and zero sleeps, raises nothing, and yields a manager whose
initialized flag is `false`. -/
theorem construct_zero_retries (d : ℚ) (svc : Service) :
    FirebaseManager.construct 0 d svc =
      (0, [], .ok { max_retries := 0, retry_delay := d, initialized := false }) :=
  rfl

/-! ## Claims about the configuration loader -/

/-- The six required credential environment variables, in the order the
fields are declared in `FirebaseConfig` (src/config.py:14-19). -/
def requiredVars : List String :=
  [ "FIREBASE_PROJECT_ID", "FIREBASE_PRIVATE_KEY_ID", "FIREBASE_PRIVATE_KEY"
  , "FIREBASE_CLIENT_EMAIL", "FIREBASE_CLIENT_ID"
  , "FIREBASE_CLIENT_X509_CERT_URL" ]

/-- Claim C4: for every environment supplying all required variables, the
loaded settings object's fields equal the input strings exactly, except
that in the private-key field every literal two-character backslash-n
escape sequence is replaced by an actual newline; all other fields are
stored unmodified. -/
theorem firebaseconfig_fields_exact (env : Env)
    (pid pkid pk ce cid curl : String)
    (h1 : getEnv env "FIREBASE_PROJECT_ID" = some pid)
    (h2 : getEnv env "FIREBASE_PRIVATE_KEY_ID" = some pkid)
    (h3 : getEnv env "FIREBASE_PRIVATE_KEY" = some pk)
    (h4 : getEnv env "FIREBASE_CLIENT_EMAIL" = some ce)
    (h5 : getEnv env "FIREBASE_CLIENT_ID" = some cid)
    (h6 : getEnv env "FIREBASE_CLIENT_X509_CERT_URL" = some curl) :
    FirebaseConfig.load env = .ok
      { project_id := pid
        private_key_id := pkid
        private_key := fix_private_key_format pk
        client_email := ce
        client_id := cid
        client_x509_cert_url := curl } := by
  unfold FirebaseConfig.load requiredField
  rw [h1, h2, h3, h4, h5, h6]
  rfl

/-- Witness for C4 at a concrete environment whose private key carries
escaped newlines. -/
theorem firebaseconfig_fields_exact_witness :
    FirebaseConfig.load
      [ ("FIREBASE_PROJECT_ID", "proj"), ("FIREBASE_PRIVATE_KEY_ID", "kid")
      , ("FIREBASE_PRIVATE_KEY", "-----BEGIN\\nKEY\\n-----")
      , ("FIREBASE_CLIENT_EMAIL", "svc@proj"), ("FIREBASE_CLIENT_ID", "42")
      , ("FIREBASE_CLIENT_X509_CERT_URL", "https://certs") ] = .ok
      { project_id := "proj"
        private_key_id := "kid"
        private_key := "-----BEGIN\nKEY\n-----"
        client_email := "svc@proj"
        client_id := "42"
        client_x509_cert_url := "https://certs" } :=
  firebaseconfig_fields_exact
    [ ("FIREBASE_PROJECT_ID", "proj"), ("FIREBASE_PRIVATE_KEY_ID", "kid")
    , ("FIREBASE_PRIVATE_KEY", "-----BEGIN\\nKEY\\n-----")
    , ("FIREBASE_CLIENT_EMAIL", "svc@proj"), ("FIREBASE_CLIENT_ID", "42")
    , ("FIREBASE_CLIENT_X509_CERT_URL", "https://certs") ]
    "proj" "kid" "-----BEGIN\\nKEY\\n-----" "svc@proj" "42" "https://certs"
    rfl rfl rfl rfl rfl rfl

/-- Claim C5: if any required variable is absent, loading fails with a
`MissingConfiguration` error — both for the credential settings object and
for the aggregate — and no partial settings object is returned. -/
theorem load_missing_required (env : Env) (n : String)
    (hmem : n ∈ requiredVars) (habs : getEnv env n = none) :
    ∃ f ∈ requiredVars,
      FirebaseConfig.load env = .error (.MissingConfiguration f) ∧
      CrossDomainConfig.load env = .error (.MissingConfiguration f) := by
  simp only [requiredVars, List.mem_cons, List.not_mem_nil, or_false] at hmem
  cases hA : getEnv env "FIREBASE_PROJECT_ID" with
  | none =>
    exact ⟨"FIREBASE_PROJECT_ID", by simp [requiredVars],
      by unfold FirebaseConfig.load requiredField; rw [hA]; rfl,
      by unfold CrossDomainConfig.load FirebaseConfig.load requiredField; rw [hA]; rfl⟩
  | some a =>
  cases hB : getEnv env "FIREBASE_PRIVATE_KEY_ID" with
  | none =>
    exact ⟨"FIREBASE_PRIVATE_KEY_ID", by simp [requiredVars],
      by unfold FirebaseConfig.load requiredField; rw [hA, hB]; rfl,
      by unfold CrossDomainConfig.load FirebaseConfig.load requiredField
         rw [hA, hB]; rfl⟩
  | some b =>
  cases hC : getEnv env "FIREBASE_PRIVATE_KEY" with
  | none =>
    exact ⟨"FIREBASE_PRIVATE_KEY", by simp [requiredVars],
      by unfold FirebaseConfig.load requiredField; rw [hA, hB, hC]; rfl,
      by unfold CrossDomainConfig.load FirebaseConfig.load requiredField
         rw [hA, hB, hC]; rfl⟩
  | some c =>
  cases hD : getEnv env "FIREBASE_CLIENT_EMAIL" with
  | none =>
    exact ⟨"FIREBASE_CLIENT_EMAIL", by simp [requiredVars],
      by unfold FirebaseConfig.load requiredField; rw [hA, hB, hC, hD]; rfl,
      by unfold CrossDomainConfig.load FirebaseConfig.load requiredField
         rw [hA, hB, hC, hD]; rfl⟩
  | some dd =>
  cases hE : getEnv env "FIREBASE_CLIENT_ID" with
  | none =>
    exact ⟨"FIREBASE_CLIENT_ID", by simp [requiredVars],
      by unfold FirebaseConfig.load requiredField; rw [hA, hB, hC, hD, hE]; rfl,
      by unfold CrossDomainConfig.load FirebaseConfig.load requiredField
         rw [hA, hB, hC, hD, hE]; rfl⟩
  | some e =>
  cases hF : getEnv env "FIREBASE_CLIENT_X509_CERT_URL" with
  | none =>
    exact ⟨"FIREBASE_CLIENT_X509_CERT_URL", by simp [requiredVars],
      by unfold FirebaseConfig.load requiredField; rw [hA, hB, hC, hD, hE, hF]; rfl,
      by unfold CrossDomainConfig.load FirebaseConfig.load requiredField
         rw [hA, hB, hC, hD, hE, hF]; rfl⟩
  | some f =>
    rcases hmem with rfl | rfl | rfl | rfl | rfl | rfl <;> simp_all

/-- Witness for C5: a concrete environment missing `FIREBASE_CLIENT_ID`. -/
theorem load_missing_required_witness :
    ∃ f ∈ requiredVars,
      FirebaseConfig.load
        [ ("FIREBASE_PROJECT_ID", "proj"), ("FIREBASE_PRIVATE_KEY_ID", "kid")
        , ("FIREBASE_PRIVATE_KEY", "pk"), ("FIREBASE_CLIENT_EMAIL", "svc@proj")
        , ("FIREBASE_CLIENT_X509_CERT_URL", "https://certs") ] =
          .error (.MissingConfiguration f) ∧
      CrossDomainConfig.load
        [ ("FIREBASE_PROJECT_ID", "proj"), ("FIREBASE_PRIVATE_KEY_ID", "kid")
        , ("FIREBASE_PRIVATE_KEY", "pk"), ("FIREBASE_CLIENT_EMAIL", "svc@proj")
        , ("FIREBASE_CLIENT_X509_CERT_URL", "https://certs") ] =
          .error (.MissingConfiguration f) :=
  load_missing_required _ "FIREBASE_CLIENT_ID" (by decide) rfl

/-- Claim C3: on a well-formed configuration (all credential fields are
strings, as the data model guarantees) `validate` returns `True`; and
whenever serializing a payload fails, `validate`'s body raises a
`ValueError` carrying the underlying cause instead of suppressing it. -/
theorem validate_success_and_wrap (cfg : CrossDomainConfig)
    (payload : List (String × PyVal)) (e : PyError)
    (hfail : json_dumps payload = .error e) :
    CrossDomainConfig.validate cfg = .ok true ∧
    validate_payload payload =
      .error (.ValueError ("Configuration validation failed: " ++ e.toMessage)) := by
  refine ⟨rfl, ?_⟩
  simp [validate_payload, hfail]

/-- Witness for C3: a concrete configuration validates to `True`, and a
payload with an injected non-serializable field raises the wrapping
`ValueError`. -/
theorem validate_success_and_wrap_witness :
    CrossDomainConfig.validate
      { firebase :=
          { project_id := "proj", private_key_id := "kid", private_key := "pk"
            client_email := "svc@proj", client_id := "42"
            client_x509_cert_url := "https://certs" }
        domain_api := { api_keys := [] }
        system :=
          { sync_interval_minutes := 30, max_concurrent_requests := 5
            log_level := "INFO", allowed_domains := [] } } = .ok true ∧
    validate_payload [("injected", .nonserializable "function")] =
      .error (.ValueError ("Configuration validation failed: " ++
        (PyError.OtherError
          "Object of type function is not JSON serializable").toMessage)) :=
  validate_success_and_wrap _ [("injected", .nonserializable "function")] _ rfl

/-- Claim C9: `validate` never returns `False`: for every configuration,
and for every payload its body could be given, the result is either `True`
or a raised error. -/
theorem validate_never_false (cfg : CrossDomainConfig)
    (payload : List (String × PyVal)) :
    CrossDomainConfig.validate cfg ≠ .ok false ∧
    validate_payload payload ≠ .ok false := by
  constructor
  · intro hcontra
    rw [show CrossDomainConfig.validate cfg = .ok true from rfl] at hcontra
    exact absurd hcontra (by simp)
  · intro hcontra
    unfold validate_payload at hcontra
    cases hj : json_dumps payload <;> simp [hj] at hcontra

/-- Counterexample to claim C7: setting `SYNC_INTERVAL_MINUTES` to "-5"
does not make loading fail — the settings object is constructed with a
negative sync interval, so loading does not reject non-positive values. -/
theorem systemconfig_accepts_negative :
    ∃ cfg, SystemConfig.load [("SYNC_INTERVAL_MINUTES", "-5")] = .ok cfg ∧
      cfg.sync_interval_minutes ≤ 0 :=
  ⟨{ sync_interval_minutes := -5, max_concurrent_requests := 5
     log_level := "INFO"
     allowed_domains := ["ecommerce", "logistics", "finance", "manufacturing"] },
   by rfl, by decide⟩

/-- Claim C7 as amended: the sync interval and the concurrency cap are
integer fields with defaults 30 and 5; any integer the environment
supplies — including zero or a negative number — is accepted and stored
unchanged, since the source declares no positivity bound. -/
theorem systemconfig_stores_any_integer (env : Env) (s : String) (v : Int)
    (hs : getEnv env "SYNC_INTERVAL_MINUTES" = some s)
    (hv : str_to_int s = some v)
    (hm : getEnv env "MAX_CONCURRENT_REQUESTS" = none)
    (hl : getEnv env "LOG_LEVEL" = none) :
    SystemConfig.load env = .ok
      { sync_interval_minutes := v
        max_concurrent_requests := 5
        log_level := "INFO"
        allowed_domains := ["ecommerce", "logistics", "finance", "manufacturing"] } := by
  simp only [SystemConfig.load, optionalIntField, hs, hv, hm, hl]
  rfl

/-- Witness for the amended C7 at the zero value. -/
theorem systemconfig_stores_any_integer_witness :
    SystemConfig.load [("SYNC_INTERVAL_MINUTES", "0")] = .ok
      { sync_interval_minutes := 0
        max_concurrent_requests := 5
        log_level := "INFO"
        allowed_domains := ["ecommerce", "logistics", "finance", "manufacturing"] } :=
  systemconfig_stores_any_integer _ "0" 0 rfl rfl rfl rfl

/-- Counterexample to claim C8: with `FIREBASE_PROJECT_ID` set to the
empty string, loading still succeeds and returns a settings object whose
`project_id` is empty — no non-emptiness validation exists. -/
theorem firebaseconfig_accepts_empty :
    FirebaseConfig.load
      [ ("FIREBASE_PROJECT_ID", ""), ("FIREBASE_PRIVATE_KEY_ID", "kid")
      , ("FIREBASE_PRIVATE_KEY", "pk"), ("FIREBASE_CLIENT_EMAIL", "svc@proj")
      , ("FIREBASE_CLIENT_ID", "42")
      , ("FIREBASE_CLIENT_X509_CERT_URL", "https://certs") ] = .ok
      { project_id := ""
        private_key_id := "kid"
        private_key := "pk"
        client_email := "svc@proj"
        client_id := "42"
        client_x509_cert_url := "https://certs" } := by
  rfl

/-- Claim C8 as amended: every successfully constructed `FirebaseConfig`
holds the six credential strings exactly as supplied, with only the
newline substitution applied to the private key; neither non-emptiness nor
any further well-formedness of the key is checked, so an environment whose
required variables are present but empty still produces a settings
object. -/
theorem firebaseconfig_no_emptiness_check (env : Env)
    (pkid pk ce cid curl : String)
    (h1 : getEnv env "FIREBASE_PROJECT_ID" = some "")
    (h2 : getEnv env "FIREBASE_PRIVATE_KEY_ID" = some pkid)
    (h3 : getEnv env "FIREBASE_PRIVATE_KEY" = some pk)
    (h4 : getEnv env "FIREBASE_CLIENT_EMAIL" = some ce)
    (h5 : getEnv env "FIREBASE_CLIENT_ID" = some cid)
    (h6 : getEnv env "FIREBASE_CLIENT_X509_CERT_URL" = some curl) :
    FirebaseConfig.load env = .ok
      { project_id := ""
        private_key_id := pkid
        private_key := fix_private_key_format pk
        client_email := ce
        client_id := cid
        client_x509_cert_url := curl } := by
  unfold FirebaseConfig.load requiredField
  rw [h1, h2, h3, h4, h5, h6]
  rfl

/-- Witness for the amended C8 at a concrete environment whose required
variables are all present but all empty. -/
theorem firebaseconfig_no_emptiness_check_witness :
    FirebaseConfig.load
      [ ("FIREBASE_PROJECT_ID", ""), ("FIREBASE_PRIVATE_KEY_ID", "")
      , ("FIREBASE_PRIVATE_KEY", ""), ("FIREBASE_CLIENT_EMAIL", "")
      , ("FIREBASE_CLIENT_ID", ""), ("FIREBASE_CLIENT_X509_CERT_URL", "") ] = .ok
      { project_id := ""
        private_key_id := ""
        private_key := ""
        client_email := ""
        client_id := ""
        client_x509_cert_url := "" } :=
  firebaseconfig_no_emptiness_check _ "" "" "" "" "" rfl rfl rfl rfl rfl rfl

end Synergy
